import Mathlib

/-!
Shallow embedding of the `openai` LLM client package of this repository
(completion / chat generation orchestrator, streaming accumulator,
non-streaming collector, embedding extractor) and of the
`outputparser` structured-JSON parser, together with proofs settling the
frozen claims about them.

Modelling conventions:
* Go machine integers (token counters) are `Int`.
* Fallible Go functions returning `(T, error)` become `Except Err T`.
* The provider client (`*openai.Client`) is modelled as an oracle indexed
  by the position of the request inside one orchestrator call: the i-th
  issued request receives the oracle's i-th answer.  Transport/provider
  errors are opaque codes (`Nat`) wrapped in `Err.provider`.
* A provider stream is the finite list of values `stream.Recv()` yields,
  in order; the end of the list is `io.EOF`.
* The caller's streaming sink (`opts.StreamingFunc`) is a function from
  the index of the fragment within the current stream and the fragment
  text to `Option Err` (`none` = nil error).  The accumulators also
  return the arrival-order trace of fragments passed to the sink, so
  that properties about "fragments delivered to the sink" can be stated.
* `map[string]any` generation-info literals become association lists
  with values in `GenValue` (the only values the code ever stores are
  strings and integers).
-/

/-- Error values of the package: the named sentinel errors of
`llms/openai`, plus opaque transport/provider errors (`provider`)
and opaque caller-sink errors (`sinkAbort`). -/
inductive Err where
  | EmptyResponse
  | MissingToken
  | UnexpectedResponseLength
  | UnexpectedEmbeddingModel
  | provider (code : Nat)
  | sinkAbort (code : Nat)
  deriving DecidableEq, Repr

/-- A value stored in a `GenerationInfo` map (`map[string]any`): the code
only ever stores strings (finish reasons) and integers (token counts). -/
inductive GenValue where
  | str (s : String)
  | int (n : Int)
  deriving DecidableEq, Repr

/-- `schema.FunctionCall`. -/
structure FunctionCall where
  Name : String
  Arguments : String
  deriving DecidableEq, Repr

/-- `schema.AIChatMessage` (the fields used by this package). -/
structure AIChatMessage where
  Content : String
  FunctionCall : Option FunctionCall := none
  deriving DecidableEq, Repr

/-- `llms.Generation`.  Fields omitted in a Go struct literal default to
their zero values, mirrored here by default field values. -/
structure Generation where
  Text : String := ""
  Message : Option AIChatMessage := none
  GenerationInfo : List (String × GenValue) := []
  deriving DecidableEq, Repr

/-- `openai.Usage` token accounting. -/
structure Usage where
  PromptTokens : Int
  CompletionTokens : Int
  TotalTokens : Int
  deriving DecidableEq, Repr

/-- One choice of a (streamed or plain) completion response. -/
structure CompletionChoice where
  Text : String
  FinishReason : String
  deriving DecidableEq, Repr

/-- `openai.CompletionResponse` (the fields the code reads). -/
structure CompletionResponse where
  Choices : List CompletionChoice
  Usage : Usage := ⟨0, 0, 0⟩
  deriving DecidableEq, Repr

/-- One value yielded by `stream.Recv()` on a completion stream: either a
delta response or a non-EOF error (an opaque transport code).  End of the
enclosing list models `io.EOF`. -/
inductive CompletionRecv where
  | delta (r : CompletionResponse)
  | recvErr (code : Nat)
  deriving DecidableEq, Repr

/-- The caller streaming sink `opts.StreamingFunc`: called with the
index of the fragment within the current stream and the fragment text;
`none` models a nil error return. -/
def Sink : Type := Nat → String → Option Err

/-- Concatenation of a list of strings in order (Go's repeated
`output += text`). -/
def concatAll : List String → String
  | [] => ""
  | s :: rest => s ++ concatAll rest

/-- Last element of a list, or a default when empty (the value a
variable repeatedly overwritten inside a loop holds afterwards). -/
def lastOr (d : String) : List String → String
  | [] => d
  | s :: rest => lastOr s rest

/-- The receive loop of `LLM.createCompletionStream` (part_001 lines
123-143): pop the next `Recv` result; end of list = `io.EOF` breaks the
loop; a receive error aborts; a delta with zero choices aborts with
`ErrEmptyResponse`; otherwise the sink is invoked on the first choice's
text (abort on a sink error), the text is appended to `output` and
`finishReason` is overwritten with the choice's finish reason.
Arguments: sink, remaining events, index of the next sink call, `output`
accumulator, `finishReason` accumulator, trace of fragments delivered to
the sink so far.  Returns the final `(output, finishReason, trace)`. -/
def completionStreamLoop (sink : Sink) :
    List CompletionRecv → Nat → String → String → List String →
    Except Err (String × String × List String)
  | [], _, output, finishReason, frags => .ok (output, finishReason, frags)
  | .recvErr code :: _, _, _, _, _ => .error (.provider code)
  | .delta r :: rest, i, output, finishReason, frags =>
    match r.Choices with
    | [] => .error .EmptyResponse
    | c :: _ =>
      match sink i c.Text with
      | some e => .error e
      | none =>
          completionStreamLoop sink rest (i + 1) (output ++ c.Text)
            c.FinishReason (frags ++ [c.Text])

/-- `LLM.createCompletionStream` (part_001 lines 114-151).  `opened` is
the result of `client.CreateCompletionStream`: either an open-error code
or the stream's list of `Recv` results.  On normal termination the
returned pair carries the built `Generation` and the arrival-order trace
of fragments delivered to the sink. -/
def createCompletionStream (opened : Except Nat (List CompletionRecv))
    (sink : Sink) : Except Err (Generation × List String) :=
  match opened with
  | .error code => .error (.provider code)
  | .ok events =>
    match completionStreamLoop sink events 0 "" "" [] with
    | .error e => .error e
    | .ok (output, finishReason, frags) =>
        .ok ({ Text := output,
               GenerationInfo := [("FinishReason", .str finishReason)] },
             frags)

/-- `LLM.createCompletion` (part_001 lines 153-174): propagate a provider
error; fail with `ErrEmptyResponse` on zero choices; otherwise build the
`Generation` from the first choice with verbatim usage counters. -/
def createCompletion (resp : Except Nat CompletionResponse) :
    Except Err Generation :=
  match resp with
  | .error code => .error (.provider code)
  | .ok r =>
    match r.Choices with
    | [] => .error .EmptyResponse
    | c :: _ =>
        .ok { Text := c.Text,
              GenerationInfo :=
                [("CompletionTokens", .int r.Usage.CompletionTokens),
                 ("PromptTokens", .int r.Usage.PromptTokens),
                 ("TotalTokens", .int r.Usage.TotalTokens),
                 ("FinishReason", .str c.FinishReason)] }

/-- `openai.FinishReasonFunctionCall`. -/
def FinishReasonFunctionCall : String := "function_call"

/-- A chat stream delta payload (`openai` delta: content plus an optional
function-call fragment; the pointer field is `none` when absent). -/
structure ChatDelta where
  Content : String := ""
  FunctionCall : Option FunctionCall := none
  deriving DecidableEq, Repr

/-- One choice in a streamed chat response. -/
structure ChatStreamChoice where
  Delta : ChatDelta
  FinishReason : String
  deriving DecidableEq, Repr

/-- `openai.ChatCompletionStreamResponse` (the fields the code reads). -/
structure ChatStreamResponse where
  Choices : List ChatStreamChoice
  deriving DecidableEq, Repr

/-- One value yielded by `stream.Recv()` on a chat stream. -/
inductive ChatRecv where
  | delta (r : ChatStreamResponse)
  | recvErr (code : Nat)
  deriving DecidableEq, Repr

/-- One choice in a non-streamed chat response. -/
structure ChatChoice where
  Message : AIChatMessage
  FinishReason : String
  deriving DecidableEq, Repr

/-- `openai.ChatCompletionResponse` (the fields the code reads). -/
structure ChatResponse where
  Choices : List ChatChoice
  Usage : Usage := ⟨0, 0, 0⟩
  deriving DecidableEq, Repr

/-- The receive loop of `Chat.createChatCompletionStream` (part_002 lines
164-191): like the completion loop, but the fragment is the delta's
`Content`; `finishReason` is overwritten with the (stringified) finish
reason of every delta; when a delta's finish reason equals
`FinishReasonFunctionCall` the delta's function-call payload replaces the
accumulated one.  (Go dereferences `Delta.FunctionCall` there and would
panic on a nil pointer; the model totalizes that dereference with the
zero-valued `FunctionCall` — no claim exercises this path.)
Accumulators: sink index, `text`, `finishReason`, `functionCall`, trace
of fragments delivered to the sink. -/
def chatStreamLoop (sink : Sink) :
    List ChatRecv → Nat → String → String → Option FunctionCall →
    List String → Except Err (String × String × Option FunctionCall × List String)
  | [], _, text, finishReason, functionCall, frags =>
      .ok (text, finishReason, functionCall, frags)
  | .recvErr code :: _, _, _, _, _, _ => .error (.provider code)
  | .delta r :: rest, i, text, finishReason, functionCall, frags =>
    match r.Choices with
    | [] => .error .EmptyResponse
    | c :: _ =>
      match sink i c.Delta.Content with
      | some e => .error e
      | none =>
          chatStreamLoop sink rest (i + 1) (text ++ c.Delta.Content)
            c.FinishReason
            (if c.FinishReason = FinishReasonFunctionCall then
              some (c.Delta.FunctionCall.getD ⟨"", ""⟩)
            else functionCall)
            (frags ++ [c.Delta.Content])

/-- `Chat.createChatCompletionStream` (part_002 lines 151-202).  On
normal termination the built `Generation` carries only `Message` and
`GenerationInfo` — the struct literal at lines 193-201 does not set
`Text`, so it stays the zero value `""`. -/
def createChatCompletionStream (opened : Except Nat (List ChatRecv))
    (sink : Sink) : Except Err (Generation × List String) :=
  match opened with
  | .error code => .error (.provider code)
  | .ok events =>
    match chatStreamLoop sink events 0 "" "" none [] with
    | .error e => .error e
    | .ok (text, finishReason, functionCall, frags) =>
        .ok ({ Message := some { Content := text, FunctionCall := functionCall },
               GenerationInfo := [("FinishReason", .str finishReason)] },
             frags)

/-- `Chat.createChatCompletion` (part_002 lines 204-238): propagate a
provider error; fail with `ErrEmptyResponse` on zero choices; otherwise
build the `Generation` from the first choice — `Text` mirrors the
message content, the function call is materialized only when the finish
reason equals `FinishReasonFunctionCall` (same nil-pointer totalization
as in the stream loop), and usage counters are copied verbatim. -/
def createChatCompletion (resp : Except Nat ChatResponse) :
    Except Err Generation :=
  match resp with
  | .error code => .error (.provider code)
  | .ok r =>
    match r.Choices with
    | [] => .error .EmptyResponse
    | c :: _ =>
        .ok { Text := c.Message.Content,
              Message := some
                { Content := c.Message.Content,
                  FunctionCall :=
                    if c.FinishReason = FinishReasonFunctionCall then
                      some ((c.Message.FunctionCall).getD ⟨"", ""⟩)
                    else none },
              GenerationInfo :=
                [("CompletionTokens", .int r.Usage.CompletionTokens),
                 ("PromptTokens", .int r.Usage.PromptTokens),
                 ("TotalTokens", .int r.Usage.TotalTokens),
                 ("FinishReason", .str c.FinishReason)] }

/-- The per-prompt loop body shared by `LLM.Generate` (part_001 lines
88-109) and `Chat.Generate` (part_002 lines 124-147): run the item
generator on each item in order, abort the whole call on the first
error (discarding records already accumulated), append each record
otherwise.  `itemGen` receives the position of the item in the input
sequence (the oracle index of the request the iteration issues). -/
def generateLoop (itemGen : Nat → Except Err Generation) :
    Nat → List α → List Generation → Except Err (List Generation)
  | _, [], generations => .ok generations
  | i, _ :: rest, generations =>
    match itemGen i with
    | .error e => .error e
    | .ok g => generateLoop itemGen (i + 1) rest (generations ++ [g])

/-- The provider client handle for completion calls, determinized as an
oracle over the position of the request within one `Generate` call:
`create i` is what `client.CreateCompletion` returns for the i-th
prompt, `createStream i` what `client.CreateCompletionStream` opens. -/
structure CompletionClient where
  create : Nat → Except Nat CompletionResponse
  createStream : Nat → Except Nat (List CompletionRecv)

/-- The provider client handle for chat calls, same determinization. -/
structure ChatClient where
  create : Nat → Except Nat ChatResponse
  createStream : Nat → Except Nat (List ChatRecv)

/-- `llms.CallOptions`, restricted to the field that steers control flow
in the verified code paths (`request.Stream = opts.StreamingFunc != nil`,
and the sink itself).  The remaining fields (model, max-tokens, sampling
parameters, stop words, N, penalties, functions) are copied verbatim
into the provider request and reach the model only through the provider,
which is already abstracted as the position-indexed oracle. -/
structure CallOptions where
  StreamingFunc : Option Sink := none

/-- One iteration of the `LLM.Generate` loop for the prompt at position
`i`: dispatch on `request.Stream` to the streaming or the non-streaming
path (part_001 lines 92-108). -/
def completionItem (client : CompletionClient) (opts : CallOptions)
    (i : Nat) : Except Err Generation :=
  match opts.StreamingFunc with
  | some sink => (createCompletionStream (client.createStream i) sink).map Prod.fst
  | none => createCompletion (client.create i)

/-- One iteration of the `Chat.Generate` loop for the message-set at
position `i` (part_002 lines 130-146). -/
def chatItem (client : ChatClient) (opts : CallOptions)
    (i : Nat) : Except Err Generation :=
  match opts.StreamingFunc with
  | some sink => (createChatCompletionStream (client.createStream i) sink).map Prod.fst
  | none => createChatCompletion (client.create i)

/-- `LLM.Generate` (part_001 lines 63-112): iterate the prompts in order
through `completionItem`, returning the accumulated records or the first
error.  (Request building and logging are pure/observational and do not
affect the returned value.) -/
def LLM.Generate (client : CompletionClient) (opts : CallOptions)
    (prompts : List String) : Except Err (List Generation) :=
  generateLoop (completionItem client opts) 0 prompts []

/-- `Chat.Generate` (part_002 lines 59-149): the message sets are first
translated to provider messages (a pure, total translation that cannot
fail), then iterated in order through `chatItem`.  The translation
affects the returned value only through the provider oracle, so the
item type is left polymorphic. -/
def Chat.Generate (client : ChatClient) (opts : CallOptions)
    (messageSets : List α) : Except Err (List Generation) :=
  generateLoop (chatItem client opts) 0 messageSets []

/-- `defaultEmbeddingModel` (part_001 line 17). -/
def defaultEmbeddingModel : String := "text-embedding-ada-002"

/-- Modelled from the spec: `stringToEmbeddingModel`, the fixed mapping
from human-readable embedding model names to provider model identifiers,
is referenced by `CreateEmbedding` (part_001 line 190) but its
definition is not among the files under `src/`.  §4.5 of the spec
describes it as a fixed mapping consulted after the empty name is
replaced by the default `text-embedding-ada-002`, with unrecognized
names failing, so the mapping is modelled as a fixed association list
containing the default name; provider model identifiers are opaque
codes. -/
def stringToEmbeddingModel : List (String × Nat) :=
  [("text-embedding-ada-002", 0)]

/-- `LLM.CreateEmbedding` (part_001 lines 185-219).  `conv` stands for
Go's widening conversion `float64(x)` applied to each `float32` element
(floating-point values themselves are not modelled; the conversion is
elementwise and order-preserving, which is all the claims state).
`provider` is `client.CreateEmbeddings`, given the resolved provider
model identifier and the input texts and returning the response's
`Data` as one embedding vector per entry, or an opaque error code.  The
returned `Bool` records whether a provider request was issued. -/
def CreateEmbedding (conv : α → β)
    (provider : Nat → List String → Except Nat (List (List α)))
    (model : String) (inputTexts : List String) :
    Except Err (List (List β)) × Bool :=
  let model := if model.length = 0 then defaultEmbeddingModel else model
  match stringToEmbeddingModel.lookup model with
  | none => (.error .UnexpectedEmbeddingModel, false)
  | some embeddingModel =>
    match provider embeddingModel inputTexts with
    | .error code => (.error (.provider code), true)
    | .ok data =>
      if data.length = 0 then (.error .EmptyResponse, true)
      else if inputTexts.length ≠ data.length then
        (.error .UnexpectedResponseLength, true)
      else (.ok (data.map (fun v => v.map conv)), true)

/-- A JSON document tree.  The structured-output parser receives model
output as text; `json.Marshal`/`json.Unmarshal` relate text and
document trees bijectively (up to whitespace), so the parser is
embedded at the level of the tree the text denotes. -/
inductive JValue where
  | str (s : String)
  | num (n : Int)
  | bool (b : Bool)
  | null
  | arr (xs : List JValue)
  | obj (kvs : List (String × JValue))

/-- The object entries accepted by `json.Unmarshal` into a Go
`map[string]string`: every value must itself be a JSON string,
otherwise unmarshalling fails with a type error. -/
def jStrEntries : List (String × JValue) → Option (List (String × String))
  | [] => some []
  | (k, .str s) :: rest => (jStrEntries rest).map (fun m => (k, s) :: m)
  | _ => none

/-- `json.Unmarshal(text, &m)` for `m : map[string]string`, on the
document tree `text` denotes: an object whose values are all strings
yields its entries; the document `null` leaves the map empty; any other
document (or a non-string value) is an unmarshalling error. -/
def unmarshalStringMap : JValue → Option (List (String × String))
  | .obj kvs => jStrEntries kvs
  | .null => some []
  | _ => none

/-- `outputparser.ResponseJSONSchema`. -/
structure ResponseJSONSchema where
  Name : String
  Description : String
  deriving DecidableEq, Repr

/-- `outputparser.StructuredJSON`. -/
structure StructuredJSON where
  ResponseJSONSchemas : List ResponseJSONSchema
  deriving DecidableEq, Repr

/-- `outputparser.NewStructuredJSON`. -/
def NewStructuredJSON (schemas : List ResponseJSONSchema) : StructuredJSON :=
  ⟨schemas⟩

/-- The error values `StructuredJSON.parse` can return: the verbatim
`json.Unmarshal` error, or a `ParseJSONError` carrying the original
document and the declared field names absent from the parsed map, in
declaration order. -/
inductive ParseErr where
  | jsonErr
  | missing (text : JValue) (keys : List String)

/-- `StructuredJSON.parse` (structured_json.go lines 61-88): unmarshal
the text into a string-to-string map (surfacing a decode failure
verbatim), collect the declared field names missing from the map in
declaration order, fail with a `ParseJSONError` when any are missing,
and otherwise return the parsed map unchanged. -/
def StructuredJSON.parse (p : StructuredJSON) (text : JValue) :
    Except ParseErr (List (String × String)) :=
  match unmarshalStringMap text with
  | none => .error .jsonErr
  | some parsed =>
    let missingKeys :=
      (p.ResponseJSONSchemas.filter
        (fun rs => (parsed.lookup rs.Name).isNone)).map (·.Name)
    if missingKeys.length > 0 then .error (.missing text missingKeys)
    else .ok parsed

/-! Observation functions on stream events, used to state what the
accumulators compute.  On every event a successful run can contain
(a delta with at least one choice) they return the first choice's text
fragment / finish reason. -/

/-- The text fragment a completion stream event contributes. -/
def recvText : CompletionRecv → String
  | .delta r => (r.Choices.head?).elim "" CompletionChoice.Text
  | .recvErr _ => ""

/-- The finish reason a completion stream event carries. -/
def recvFinish : CompletionRecv → String
  | .delta r => (r.Choices.head?).elim "" CompletionChoice.FinishReason
  | .recvErr _ => ""

/-- The content fragment a chat stream event contributes. -/
def chatRecvText : ChatRecv → String
  | .delta r => (r.Choices.head?).elim "" (fun c => c.Delta.Content)
  | .recvErr _ => ""

/-- The finish reason a chat stream event carries. -/
def chatRecvFinish : ChatRecv → String
  | .delta r => (r.Choices.head?).elim "" ChatStreamChoice.FinishReason
  | .recvErr _ => ""

/-- The records a fully successful generate loop accumulates, when the
item at absolute position `p` yields `g p`: `okRecords g i n` are the
records for the `n` items starting at position `i`. -/
def okRecords (g : Nat → Generation) : Nat → Nat → List Generation
  | _, 0 => []
  | i, n + 1 => g i :: okRecords g (i + 1) n

/-- The proposition that the receive loop traverses the events `pre`
without aborting: every event is a delta with at least one choice and
the sink accepts its fragment (`i` is the sink index of the first
event). -/
def sinkAccepts (sink : Sink) : Nat → List CompletionRecv → Prop
  | _, [] => True
  | i, .delta r :: rest =>
      ∃ ch chs, r.Choices = ch :: chs ∧ sink i ch.Text = none ∧
        sinkAccepts sink (i + 1) rest
  | _, .recvErr _ :: _ => False

/-- The record a normally-terminating completion stream of fragments
`"a"`, `"b"` (finish reasons `""`, `"stop"`) produces; used by witness
statements. -/
def genAB : Generation :=
  { Text := "ab", GenerationInfo := [("FinishReason", .str "stop")] }

/-- The record a normally-terminating chat stream of the single
fragment `"hey"` produces; used by witness statements. -/
def genHey : Generation :=
  { Text := "", Message := some ⟨"hey", none⟩,
    GenerationInfo := [("FinishReason", .str "")] }

/-- The record a non-streaming completion response with one choice
`("t", "stop")` and usage `(1, 2, 3)` produces; used by witness
statements. -/
def compGenT : Generation :=
  { Text := "t",
    GenerationInfo :=
      [("CompletionTokens", .int 2), ("PromptTokens", .int 1),
       ("TotalTokens", .int 3), ("FinishReason", .str "stop")] }

/-- The record a non-streaming chat response with one choice (message
content `"c"`, finish reason `"stop"`) and usage `(1, 2, 3)` produces;
used by witness statements. -/
def chatGenC : Generation :=
  { Text := "c", Message := some ⟨"c", none⟩,
    GenerationInfo :=
      [("CompletionTokens", .int 2), ("PromptTokens", .int 1),
       ("TotalTokens", .int 3), ("FinishReason", .str "stop")] }

/-- A completion client whose second request (position 1) fails with
provider error 7 and whose other requests succeed; used by witness
statements. -/
def failAt1Client : CompletionClient :=
  ⟨fun i => if i = 1 then .error 7 else .ok ⟨[⟨"t", "stop"⟩], ⟨1, 2, 3⟩⟩,
   fun _ => .error 0⟩

/-- A chat client whose second request (position 1) fails with provider
error 3 and whose other requests succeed; used by witness statements. -/
def failAt1ChatClient : ChatClient :=
  ⟨fun i => if i = 1 then .error 3 else .ok ⟨[⟨⟨"c", none⟩, "stop"⟩], ⟨1, 2, 3⟩⟩,
   fun _ => .error 0⟩

/-- A completion client answering every request with one choice
`("t", "stop")` and usage `(1, 2, 3)`; used by witness statements. -/
def okClient : CompletionClient :=
  ⟨fun _ => .ok ⟨[⟨"t", "stop"⟩], ⟨1, 2, 3⟩⟩, fun _ => .error 0⟩

example :
    (NewStructuredJSON [⟨"prompt", "d"⟩, ⟨"negativePrompt", "d"⟩]).parse
      (.obj [("prompt", .str "a cat")]) =
    .error (.missing (.obj [("prompt", .str "a cat")]) ["negativePrompt"]) := by
  rfl

example :
    CreateEmbedding (fun (n : Nat) => (n : Int))
      (fun _ _ => .ok [[1, 2], [3]]) "" ["a", "b"] =
    (.ok [[(1 : Int), 2], [3]], true) := by
  rfl

example :
    CreateEmbedding (fun (n : Nat) => (n : Int))
      (fun _ _ => .ok [[1, 2], [3]]) "not-a-real-model" ["a", "b"] =
    (.error .UnexpectedEmbeddingModel, false) := by
  rfl

example :
    createCompletionStream
      (.ok [.delta ⟨[⟨"ab", ""⟩], ⟨0,0,0⟩⟩, .delta ⟨[⟨"cd", "stop"⟩], ⟨0,0,0⟩⟩])
      (fun _ _ => none) =
    .ok ({ Text := "abcd",
           GenerationInfo := [("FinishReason", .str "stop")] }, ["ab", "cd"]) := by
  rfl

example :
    createChatCompletionStream
      (.ok [.delta ⟨[⟨⟨"hi", none⟩, ""⟩]⟩]) (fun _ _ => none) =
    .ok ({ Text := "",
           Message := some { Content := "hi", FunctionCall := none },
           GenerationInfo := [("FinishReason", .str "")] }, ["hi"]) := by
  rfl

example :
    LLM.Generate ⟨fun _ => .ok ⟨[⟨"t", "stop"⟩], ⟨1, 2, 3⟩⟩, fun _ => .error 0⟩
      {} ["p"] =
    .ok [{ Text := "t",
           GenerationInfo :=
             [("CompletionTokens", .int 2), ("PromptTokens", .int 1),
              ("TotalTokens", .int 3), ("FinishReason", .str "stop")] }] := by
  rfl

/-- Characterization of a normally-terminating completion receive loop:
the final output extends the accumulator by the concatenated fragments,
the delivered-fragment trace extends it by the fragment list, and the
final finish reason is the last event's finish reason (the loop
overwrites it on every delta). -/
theorem completionStreamLoop_ok_spec (sink : Sink) :
    ∀ (events : List CompletionRecv) (i : Nat) (out fr : String)
      (frags : List String) (o f : String) (g : List String),
      completionStreamLoop sink events i out fr frags = .ok (o, f, g) →
      o = out ++ concatAll (events.map recvText) ∧
      g = frags ++ events.map recvText ∧
      f = lastOr fr (events.map recvFinish) := by
  intro events
  induction events with
  | nil =>
    intro i out fr frags o f g h
    simp only [completionStreamLoop, Except.ok.injEq, Prod.mk.injEq] at h
    obtain ⟨h1, h2, h3⟩ := h
    subst h1; subst h2; subst h3
    simp [concatAll, lastOr, String.append_empty]
  | cons ev rest ih =>
    intro i out fr frags o f g h
    cases ev with
    | recvErr code => simp [completionStreamLoop] at h
    | delta r =>
      rcases r with ⟨choices, usage⟩
      cases choices with
      | nil => simp [completionStreamLoop] at h
      | cons c cs =>
        simp only [completionStreamLoop] at h
        cases hs : sink i c.Text with
        | some e => rw [hs] at h; simp at h
        | none =>
          rw [hs] at h
          obtain ⟨h1, h2, h3⟩ := ih (i + 1) (out ++ c.Text) c.FinishReason
            (frags ++ [c.Text]) o f g h
          refine ⟨?_, ?_, ?_⟩
          · rw [h1]
            simp only [List.map_cons, recvText, List.head?_cons, Option.elim,
              concatAll]
            rw [String.append_assoc]
          · rw [h2]
            simp [recvText]
          · rw [h3]
            simp [recvFinish, lastOr]

/-- Characterization of a normally-terminating chat receive loop (the
function-call accumulator is unconstrained). -/
theorem chatStreamLoop_ok_spec (sink : Sink) :
    ∀ (events : List ChatRecv) (i : Nat) (text fr : String)
      (fc : Option FunctionCall) (frags : List String) (t f : String)
      (fc' : Option FunctionCall) (g : List String),
      chatStreamLoop sink events i text fr fc frags = .ok (t, f, fc', g) →
      t = text ++ concatAll (events.map chatRecvText) ∧
      g = frags ++ events.map chatRecvText ∧
      f = lastOr fr (events.map chatRecvFinish) := by
  intro events
  induction events with
  | nil =>
    intro i text fr fc frags t f fc' g h
    simp only [chatStreamLoop, Except.ok.injEq, Prod.mk.injEq] at h
    obtain ⟨h1, h2, h3, h4⟩ := h
    subst h1; subst h2; subst h4
    simp [concatAll, lastOr, String.append_empty]
  | cons ev rest ih =>
    intro i text fr fc frags t f fc' g h
    cases ev with
    | recvErr code => simp [chatStreamLoop] at h
    | delta r =>
      rcases r with ⟨choices⟩
      cases choices with
      | nil => simp [chatStreamLoop] at h
      | cons c cs =>
        simp only [chatStreamLoop] at h
        cases hs : sink i c.Delta.Content with
        | some e => rw [hs] at h; simp at h
        | none =>
          rw [hs] at h
          obtain ⟨h1, h2, h3⟩ := ih (i + 1) (text ++ c.Delta.Content)
            c.FinishReason _ (frags ++ [c.Delta.Content]) t f fc' g h
          refine ⟨?_, ?_, ?_⟩
          · rw [h1]
            simp only [List.map_cons, chatRecvText, List.head?_cons, Option.elim,
              concatAll]
            rw [String.append_assoc]
          · rw [h2]
            simp [chatRecvText]
          · rw [h3]
            simp [chatRecvFinish, lastOr]

/-- If the items at positions `i, i+1, …` before relative position `k`
all succeed and the item at relative position `k` fails with `e`, the
generate loop returns `e` (and hence no records). -/
theorem generateLoop_first_error (itemGen : Nat → Except Err Generation)
    (e : Err) :
    ∀ (items : List α) (k i : Nat) (acc : List Generation),
      k < items.length →
      (∀ j, j < k → ∃ g, itemGen (i + j) = .ok g) →
      itemGen (i + k) = .error e →
      generateLoop itemGen i items acc = .error e := by
  intro items
  induction items with
  | nil =>
    intro k i acc hk
    exact absurd hk (by simp)
  | cons x rest ih =>
    intro k i acc hk hpre hfail
    cases k with
    | zero =>
      simp only [generateLoop]
      rw [show i + 0 = i from rfl] at hfail
      rw [hfail]
    | succ k =>
      obtain ⟨g0, hg0⟩ := hpre 0 (Nat.succ_pos k)
      simp only [generateLoop]
      rw [show i + 0 = i from rfl] at hg0
      rw [hg0]
      refine ih k (i + 1) (acc ++ [g0]) (by simpa using hk) ?_ ?_
      · intro j hj
        obtain ⟨g, hg⟩ := hpre (j + 1) (Nat.succ_lt_succ hj)
        exact ⟨g, by rw [show i + 1 + j = i + (j + 1) from by omega]; exact hg⟩
      · rw [show i + 1 + k = i + (k + 1) from by omega]
        exact hfail

theorem okRecords_length (g : Nat → Generation) :
    ∀ (n i : Nat), (okRecords g i n).length = n := by
  intro n
  induction n with
  | zero => intro i; rfl
  | succ n ih => intro i; simp [okRecords, ih]

theorem okRecords_getElem (g : Nat → Generation) :
    ∀ (n i j : Nat) (hj : j < (okRecords g i n).length),
      (okRecords g i n)[j] = g (i + j) := by
  intro n
  induction n with
  | zero => intro i j hj; simp [okRecords_length] at hj
  | succ n ih =>
    intro i j hj
    cases j with
    | zero => simp [okRecords]
    | succ j =>
      have hj' : j < (okRecords g (i + 1) n).length := by
        simpa [okRecords_length] using hj
      calc (okRecords g i (n + 1))[j + 1] = (okRecords g (i + 1) n)[j] := by
            simp [okRecords]
        _ = g (i + 1 + j) := ih (i + 1) j hj'
        _ = g (i + (j + 1)) := by rw [show i + 1 + j = i + (j + 1) from by omega]

/-- If every item of the list succeeds, the generate loop returns all
the records, one per item, in item order. -/
theorem generateLoop_all_ok (itemGen : Nat → Except Err Generation)
    (g : Nat → Generation) :
    ∀ (items : List α) (i : Nat) (acc : List Generation),
      (∀ j, j < items.length → itemGen (i + j) = .ok (g (i + j))) →
      generateLoop itemGen i items acc = .ok (acc ++ okRecords g i items.length) := by
  intro items
  induction items with
  | nil => intro i acc _; simp [generateLoop, okRecords]
  | cons x rest ih =>
    intro i acc hall
    have h0 := hall 0 (Nat.succ_pos rest.length)
    rw [show i + 0 = i from rfl] at h0
    simp only [generateLoop, h0]
    have := ih (i + 1) (acc ++ [g i]) ?_
    · rw [this]
      simp [okRecords]
    · intro j hj
      rw [show i + 1 + j = i + (j + 1) from by omega]
      exact hall (j + 1) (by simpa using Nat.succ_lt_succ hj)

/-- Reaching a zero-choice delta aborts the completion receive loop
with `ErrEmptyResponse`, whatever follows it. -/
theorem completionStreamLoop_empty_choice (sink : Sink)
    (bad : CompletionResponse) (hbad : bad.Choices = [])
    (rest : List CompletionRecv) :
    ∀ (pre : List CompletionRecv) (i : Nat) (out fr : String)
      (frags : List String),
      sinkAccepts sink i pre →
      completionStreamLoop sink (pre ++ .delta bad :: rest) i out fr frags =
        .error .EmptyResponse := by
  intro pre
  induction pre with
  | nil =>
    intro i out fr frags _
    simp only [List.nil_append, completionStreamLoop, hbad]
  | cons ev pre' ih =>
    intro i out fr frags hacc
    cases ev with
    | recvErr code => exact absurd hacc (by simp [sinkAccepts])
    | delta r =>
      obtain ⟨ch, chs, hch, hsink, hrest⟩ := hacc
      rcases r with ⟨choices, usage⟩
      simp only at hch
      subst hch
      simp only [List.cons_append, completionStreamLoop, hsink]
      exact ih (i + 1) (out ++ ch.Text) ch.FinishReason (frags ++ [ch.Text]) hrest

/-- C1 (amended): for every streaming call that terminates normally at
end-of-stream, the concatenation, in arrival order, of the fragments
delivered to the caller's sink is carried in the returned record — in
the `Text` field for completion streams, but in the message `Content`
for chat streams, whose `Text` field is left empty; in both cases the
record's `generationInfo` contains no usage-counter keys. -/
theorem claim_C1_streaming_sink_concat_no_usage
    (opened : Except Nat (List CompletionRecv))
    (chatOpened : Except Nat (List ChatRecv))
    (sink csink : Sink) {g g' : Generation} {frags frags' : List String}
    (h : createCompletionStream opened sink = .ok (g, frags))
    (h' : createChatCompletionStream chatOpened csink = .ok (g', frags')) :
    (g.Text = concatAll frags ∧
      g.GenerationInfo.lookup "PromptTokens" = none ∧
      g.GenerationInfo.lookup "CompletionTokens" = none ∧
      g.GenerationInfo.lookup "TotalTokens" = none) ∧
    (g'.Text = "" ∧
      (∃ m, g'.Message = some m ∧ m.Content = concatAll frags') ∧
      g'.GenerationInfo.lookup "PromptTokens" = none ∧
      g'.GenerationInfo.lookup "CompletionTokens" = none ∧
      g'.GenerationInfo.lookup "TotalTokens" = none) := by
  constructor
  · cases opened with
    | error code => simp [createCompletionStream] at h
    | ok events =>
      simp only [createCompletionStream] at h
      cases hloop : completionStreamLoop sink events 0 "" "" [] with
      | error e => rw [hloop] at h; exact absurd h (by simp)
      | ok res =>
        obtain ⟨o, f, gg⟩ := res
        rw [hloop] at h
        simp only [Except.ok.injEq, Prod.mk.injEq] at h
        obtain ⟨hg, hfrags⟩ := h
        obtain ⟨h1, h2, _⟩ :=
          completionStreamLoop_ok_spec sink events 0 "" "" [] o f gg hloop
        subst hg; subst hfrags
        refine ⟨?_, by simp [List.lookup], by simp [List.lookup],
          by simp [List.lookup]⟩
        rw [h1, h2]
        simp [String.empty_append]
  · cases chatOpened with
    | error code => simp [createChatCompletionStream] at h'
    | ok events =>
      simp only [createChatCompletionStream] at h'
      cases hloop : chatStreamLoop csink events 0 "" "" none [] with
      | error e => rw [hloop] at h'; exact absurd h' (by simp)
      | ok res =>
        obtain ⟨t, f, fc, gg⟩ := res
        rw [hloop] at h'
        simp only [Except.ok.injEq, Prod.mk.injEq] at h'
        obtain ⟨hg, hfrags⟩ := h'
        obtain ⟨h1, h2, _⟩ :=
          chatStreamLoop_ok_spec csink events 0 "" "" none [] t f fc gg hloop
        subst hg; subst hfrags
        refine ⟨rfl, ⟨⟨t, fc⟩, rfl, ?_⟩, by simp [List.lookup],
          by simp [List.lookup], by simp [List.lookup]⟩
        rw [h1, h2]
        simp [String.empty_append]

/-- C1 counterexample (claim as frozen is false): a chat streaming call
delivering the single fragment `"hi"` to the sink terminates normally
with a record whose `Text` field is `""`, not the concatenation `"hi"`
of the delivered fragments (the chat streaming path stores the
accumulated text only in the message). -/
theorem claim_C1_counterexample :
    createChatCompletionStream (.ok [.delta ⟨[⟨⟨"hi", none⟩, ""⟩]⟩])
      (fun _ _ => none) =
      .ok ({ Text := "", Message := some ⟨"hi", none⟩,
             GenerationInfo := [("FinishReason", .str "")] }, ["hi"]) ∧
    ({ Text := "", Message := some ⟨"hi", none⟩,
       GenerationInfo := [("FinishReason", .str "")] } : Generation).Text ≠
      concatAll ["hi"] := by
  exact ⟨rfl, by decide⟩

/-- Witness for `claim_C1_streaming_sink_concat_no_usage` at a concrete
two-fragment completion stream and a one-fragment chat stream
(`genAB` and `genHey` are the records those runs produce). -/
theorem claim_C1_witness :
    (genAB.Text = concatAll ["a", "b"] ∧
      genAB.GenerationInfo.lookup "PromptTokens" = none ∧
      genAB.GenerationInfo.lookup "CompletionTokens" = none ∧
      genAB.GenerationInfo.lookup "TotalTokens" = none) ∧
    (genHey.Text = "" ∧
      (∃ m, genHey.Message = some m ∧ m.Content = concatAll ["hey"]) ∧
      genHey.GenerationInfo.lookup "PromptTokens" = none ∧
      genHey.GenerationInfo.lookup "CompletionTokens" = none ∧
      genHey.GenerationInfo.lookup "TotalTokens" = none) :=
  claim_C1_streaming_sink_concat_no_usage
    (.ok [.delta ⟨[⟨"a", ""⟩], ⟨0, 0, 0⟩⟩, .delta ⟨[⟨"b", "stop"⟩], ⟨0, 0, 0⟩⟩])
    (.ok [.delta ⟨[⟨⟨"hey", none⟩, ""⟩]⟩])
    (fun _ _ => none) (fun _ _ => none) rfl rfl

/-- C3 (amended): for every streaming call that terminates normally,
the finish reason stored in the returned record's `generationInfo` is
the finish reason carried by the stream's final delta — the loop
overwrites the accumulator on every delta, so a later empty value does
overwrite an earlier non-empty one — and is `""` when the stream has no
deltas. -/
theorem claim_C3_finish_reason_of_last_delta
    (events : List CompletionRecv) (cevents : List ChatRecv)
    (sink csink : Sink) {g g' : Generation} {frags frags' : List String}
    (h : createCompletionStream (.ok events) sink = .ok (g, frags))
    (h' : createChatCompletionStream (.ok cevents) csink = .ok (g', frags')) :
    g.GenerationInfo.lookup "FinishReason" =
      some (.str (lastOr "" (events.map recvFinish))) ∧
    g'.GenerationInfo.lookup "FinishReason" =
      some (.str (lastOr "" (cevents.map chatRecvFinish))) := by
  constructor
  · simp only [createCompletionStream] at h
    cases hloop : completionStreamLoop sink events 0 "" "" [] with
    | error e => rw [hloop] at h; exact absurd h (by simp)
    | ok res =>
      obtain ⟨o, f, gg⟩ := res
      rw [hloop] at h
      simp only [Except.ok.injEq, Prod.mk.injEq] at h
      obtain ⟨hg, _⟩ := h
      obtain ⟨_, _, h3⟩ :=
        completionStreamLoop_ok_spec sink events 0 "" "" [] o f gg hloop
      subst hg
      simp [List.lookup, h3]
  · simp only [createChatCompletionStream] at h'
    cases hloop : chatStreamLoop csink cevents 0 "" "" none [] with
    | error e => rw [hloop] at h'; exact absurd h' (by simp)
    | ok res =>
      obtain ⟨t, f, fc, gg⟩ := res
      rw [hloop] at h'
      simp only [Except.ok.injEq, Prod.mk.injEq] at h'
      obtain ⟨hg, _⟩ := h'
      obtain ⟨_, _, h3⟩ :=
        chatStreamLoop_ok_spec csink cevents 0 "" "" none [] t f fc gg hloop
      subst hg
      simp [List.lookup, h3]

/-- C3 counterexample (claim as frozen is false): a completion stream
whose first delta carries finish reason `"stop"` and whose second delta
carries an empty finish reason terminates normally with
`generationInfo.FinishReason = ""` — the delta with the empty finish
reason did overwrite the previously observed non-empty `"stop"`. -/
theorem claim_C3_counterexample :
    createCompletionStream
      (.ok [.delta ⟨[⟨"a", "stop"⟩], ⟨0, 0, 0⟩⟩,
            .delta ⟨[⟨"", ""⟩], ⟨0, 0, 0⟩⟩])
      (fun _ _ => none) =
      .ok ({ Text := "a", GenerationInfo := [("FinishReason", .str "")] },
           ["a", ""]) ∧
    ({ Text := "a", GenerationInfo := [("FinishReason", .str "")] }
        : Generation).GenerationInfo.lookup "FinishReason" ≠
      some (.str "stop") := by
  exact ⟨rfl, by decide⟩

/-- Witness for `claim_C3_finish_reason_of_last_delta` at the concrete
streams of `claim_C1_witness`'s shape. -/
theorem claim_C3_witness :
    genAB.GenerationInfo.lookup "FinishReason" =
      some (.str (lastOr ""
        ([CompletionRecv.delta ⟨[⟨"a", ""⟩], ⟨0, 0, 0⟩⟩,
          CompletionRecv.delta ⟨[⟨"b", "stop"⟩], ⟨0, 0, 0⟩⟩].map recvFinish))) ∧
    genHey.GenerationInfo.lookup "FinishReason" =
      some (.str (lastOr ""
        ([ChatRecv.delta ⟨[⟨⟨"hey", none⟩, ""⟩]⟩].map chatRecvFinish))) :=
  claim_C3_finish_reason_of_last_delta
    [.delta ⟨[⟨"a", ""⟩], ⟨0, 0, 0⟩⟩, .delta ⟨[⟨"b", "stop"⟩], ⟨0, 0, 0⟩⟩]
    [.delta ⟨[⟨⟨"hey", none⟩, ""⟩]⟩]
    (fun _ _ => none) (fun _ _ => none) rfl rfl

/-- C4 (amended): a successful generation's `text` field holds the
generated text for completion calls and mirrors the returned message's
content for non-streaming chat calls; for streaming chat calls the
`text` field is left empty (the content is carried only inside the
message), so the mirroring part of the claim fails there. -/
theorem claim_C4_text_population
    (r : CompletionResponse) (ch : CompletionChoice)
    (chs : List CompletionChoice) (hc : r.Choices = ch :: chs)
    {g : Generation} (h : createCompletion (.ok r) = .ok g)
    (cr : ChatResponse) {g' : Generation}
    (h' : createChatCompletion (.ok cr) = .ok g')
    (chatOpened : Except Nat (List ChatRecv)) (csink : Sink)
    {g'' : Generation} {frags'' : List String}
    (h'' : createChatCompletionStream chatOpened csink = .ok (g'', frags'')) :
    g.Text = ch.Text ∧
    (∃ m, g'.Message = some m ∧ g'.Text = m.Content) ∧
    (g''.Text = "" ∧ ∃ m, g''.Message = some m) := by
  refine ⟨?_, ?_, ?_⟩
  · simp only [createCompletion, hc] at h
    simp only [Except.ok.injEq] at h
    subst h
    rfl
  · simp only [createChatCompletion] at h'
    cases hcc : cr.Choices with
    | nil => rw [hcc] at h'; exact absurd h' (by simp)
    | cons c cs =>
      rw [hcc] at h'
      simp only [Except.ok.injEq] at h'
      subst h'
      exact ⟨_, rfl, rfl⟩
  · cases chatOpened with
    | error code => simp [createChatCompletionStream] at h''
    | ok events =>
      simp only [createChatCompletionStream] at h''
      cases hloop : chatStreamLoop csink events 0 "" "" none [] with
      | error e => rw [hloop] at h''; exact absurd h'' (by simp)
      | ok res =>
        obtain ⟨t, f, fc, gg⟩ := res
        rw [hloop] at h''
        simp only [Except.ok.injEq, Prod.mk.injEq] at h''
        obtain ⟨hg, _⟩ := h''
        subst hg
        exact ⟨rfl, _, rfl⟩

/-- C4 counterexample (claim as frozen is false): a chat streaming call
whose stream delivers `"hello"` terminates normally with a record whose
message content is `"hello"` but whose `text` field is `""` — the text
does not mirror the returned message's content. -/
theorem claim_C4_counterexample :
    createChatCompletionStream (.ok [.delta ⟨[⟨⟨"hello", none⟩, ""⟩]⟩])
      (fun _ _ => none) =
      .ok ({ Text := "", Message := some ⟨"hello", none⟩,
             GenerationInfo := [("FinishReason", .str "")] }, ["hello"]) ∧
    ({ Text := "", Message := some ⟨"hello", none⟩,
       GenerationInfo := [("FinishReason", .str "")] } : Generation).Text ≠
      AIChatMessage.Content ⟨"hello", none⟩ := by
  exact ⟨rfl, by decide⟩

/-- Witness for `claim_C4_text_population` at concrete one-choice
responses and a one-fragment chat stream. -/
theorem claim_C4_witness :
    compGenT.Text = CompletionChoice.Text ⟨"t", "stop"⟩ ∧
    (∃ m, chatGenC.Message = some m ∧ chatGenC.Text = m.Content) ∧
    (genHey.Text = "" ∧ ∃ m, genHey.Message = some m) :=
  claim_C4_text_population ⟨[⟨"t", "stop"⟩], ⟨1, 2, 3⟩⟩ ⟨"t", "stop"⟩ [] rfl rfl
    ⟨[⟨⟨"c", none⟩, "stop"⟩], ⟨1, 2, 3⟩⟩ rfl
    (.ok [.delta ⟨[⟨⟨"hey", none⟩, ""⟩]⟩]) (fun _ _ => none) rfl

/-- C2: when the items of a `Generate` call (completion prompts or chat
message-sets) before position `k` all succeed and the item at position
`k` fails with error `e`, the whole call returns `.error e` — hence
zero records: the records built for the earlier items are discarded and
never surface. -/
theorem claim_C2_generate_aborts_on_first_failure
    (client : CompletionClient) (cclient : ChatClient)
    (opts copts : CallOptions) (prompts : List String)
    (messageSets : List α) (k k' : Nat) (e e' : Err)
    (hk : k < prompts.length)
    (hpre : ∀ j, j < k → ∃ g, completionItem client opts j = .ok g)
    (hfail : completionItem client opts k = .error e)
    (hk' : k' < messageSets.length)
    (hpre' : ∀ j, j < k' → ∃ g, chatItem cclient copts j = .ok g)
    (hfail' : chatItem cclient copts k' = .error e') :
    LLM.Generate client opts prompts = .error e ∧
    Chat.Generate cclient copts messageSets = .error e' := by
  constructor
  · exact generateLoop_first_error _ e prompts k 0 [] hk
      (fun j hj => by rw [Nat.zero_add]; exact hpre j hj)
      (by rw [Nat.zero_add]; exact hfail)
  · exact generateLoop_first_error _ e' messageSets k' 0 [] hk'
      (fun j hj => by rw [Nat.zero_add]; exact hpre' j hj)
      (by rw [Nat.zero_add]; exact hfail')

/-- Witness for `claim_C2_generate_aborts_on_first_failure`: the spec's
3-item example — item 1 (0-based) fails, items 0 and 2 would succeed,
and the call returns only item 1's error with zero records. -/
theorem claim_C2_witness :
    LLM.Generate failAt1Client {} ["a", "b", "c"] = .error (.provider 7) ∧
    Chat.Generate failAt1ChatClient {} [(), (), ()] = .error (.provider 3) :=
  claim_C2_generate_aborts_on_first_failure failAt1Client failAt1ChatClient
    {} {} ["a", "b", "c"] [(), (), ()] 1 1 (.provider 7) (.provider 3)
    (by decide)
    (fun j hj => by
      match j, hj with
      | 0, _ => exact ⟨compGenT, rfl⟩)
    rfl
    (by decide)
    (fun j hj => by
      match j, hj with
      | 0, _ => exact ⟨chatGenC, rfl⟩)
    rfl

/-- C5: a non-streaming completion `Generate` call whose every
per-prompt response arrives with at least one choice returns exactly
one record per prompt, in prompt order, each carrying the response's
usage counters verbatim in its `generationInfo`. -/
theorem claim_C5_nonstreaming_usage_verbatim
    (client : CompletionClient) (opts : CallOptions)
    (hstream : opts.StreamingFunc = none) (prompts : List String)
    (resp : Nat → CompletionResponse) (ch : Nat → CompletionChoice)
    (chs : Nat → List CompletionChoice)
    (hresp : ∀ i, i < prompts.length → client.create i = .ok (resp i))
    (hchoice : ∀ i, i < prompts.length → (resp i).Choices = ch i :: chs i) :
    LLM.Generate client opts prompts =
      .ok (okRecords (fun i =>
        { Text := (ch i).Text,
          GenerationInfo :=
            [("CompletionTokens", .int (resp i).Usage.CompletionTokens),
             ("PromptTokens", .int (resp i).Usage.PromptTokens),
             ("TotalTokens", .int (resp i).Usage.TotalTokens),
             ("FinishReason", .str (ch i).FinishReason)] }) 0 prompts.length) ∧
    (∀ gs, LLM.Generate client opts prompts = .ok gs →
      gs.length = prompts.length) := by
  have hmain :
      LLM.Generate client opts prompts =
        .ok (okRecords (fun i =>
          { Text := (ch i).Text,
            GenerationInfo :=
              [("CompletionTokens", .int (resp i).Usage.CompletionTokens),
               ("PromptTokens", .int (resp i).Usage.PromptTokens),
               ("TotalTokens", .int (resp i).Usage.TotalTokens),
               ("FinishReason", .str (ch i).FinishReason)] }) 0 prompts.length) := by
    have h := generateLoop_all_ok (completionItem client opts)
      (fun i =>
        { Text := (ch i).Text,
          GenerationInfo :=
            [("CompletionTokens", .int (resp i).Usage.CompletionTokens),
             ("PromptTokens", .int (resp i).Usage.PromptTokens),
             ("TotalTokens", .int (resp i).Usage.TotalTokens),
             ("FinishReason", .str (ch i).FinishReason)] })
      prompts 0 [] ?_
    · simpa [LLM.Generate] using h
    · intro j hj
      rw [Nat.zero_add]
      simp only [completionItem, hstream]
      rw [hresp j hj]
      simp [createCompletion, hchoice j hj]
  refine ⟨hmain, fun gs hgs => ?_⟩
  rw [hmain] at hgs
  simp only [Except.ok.injEq] at hgs
  subst hgs
  exact okRecords_length _ _ _

/-- Witness for `claim_C5_nonstreaming_usage_verbatim` at two prompts
against a client answering every request with one choice and usage
`(1, 2, 3)`. -/
theorem claim_C5_witness :
    LLM.Generate okClient {} ["x", "y"] =
      .ok (okRecords (fun i =>
        { Text := (CompletionChoice.Text ⟨"t", "stop"⟩),
          GenerationInfo :=
            [("CompletionTokens",
              .int (Usage.CompletionTokens ⟨1, 2, 3⟩)),
             ("PromptTokens", .int (Usage.PromptTokens ⟨1, 2, 3⟩)),
             ("TotalTokens", .int (Usage.TotalTokens ⟨1, 2, 3⟩)),
             ("FinishReason",
              .str (CompletionChoice.FinishReason ⟨"t", "stop"⟩))] })
        0 (["x", "y"] : List String).length) ∧
    (∀ gs, LLM.Generate okClient {} ["x", "y"] = .ok gs →
      gs.length = (["x", "y"] : List String).length) :=
  claim_C5_nonstreaming_usage_verbatim okClient {} rfl ["x", "y"]
    (fun _ => ⟨[⟨"t", "stop"⟩], ⟨1, 2, 3⟩⟩) (fun _ => ⟨"t", "stop"⟩)
    (fun _ => []) (fun _ _ => rfl) (fun _ _ => rfl)

/-- C8: a zero-choice provider response makes the non-streaming
collector fail with `ErrEmptyResponse`, and a zero-choice delta, once
the stream reaches it, makes the streaming accumulator fail with
`ErrEmptyResponse` — in neither case is any record (in particular one
with empty text) produced. -/
theorem claim_C8_zero_choices_empty_response
    (r : CompletionResponse) (hr : r.Choices = [])
    (sink : Sink) (pre rest : List CompletionRecv)
    (bad : CompletionResponse) (hbad : bad.Choices = [])
    (hacc : sinkAccepts sink 0 pre) :
    createCompletion (.ok r) = .error .EmptyResponse ∧
    createCompletionStream (.ok (pre ++ .delta bad :: rest)) sink =
      .error .EmptyResponse := by
  constructor
  · simp [createCompletion, hr]
  · simp only [createCompletionStream]
    rw [completionStreamLoop_empty_choice sink bad hbad rest pre 0 "" "" [] hacc]

/-- Witness for `claim_C8_zero_choices_empty_response`: a zero-choice
response, and a stream whose second delta has zero choices after a
good first delta. -/
theorem claim_C8_witness :
    createCompletion (.ok ⟨[], ⟨0, 0, 0⟩⟩) = .error .EmptyResponse ∧
    createCompletionStream
      (.ok ([CompletionRecv.delta ⟨[⟨"a", ""⟩], ⟨0, 0, 0⟩⟩] ++
        .delta ⟨[], ⟨0, 0, 0⟩⟩ :: [])) (fun _ _ => none) =
      .error .EmptyResponse :=
  claim_C8_zero_choices_empty_response ⟨[], ⟨0, 0, 0⟩⟩ rfl
    (fun _ _ => none) [.delta ⟨[⟨"a", ""⟩], ⟨0, 0, 0⟩⟩] []
    ⟨[], ⟨0, 0, 0⟩⟩ rfl ⟨⟨"a", ""⟩, [], rfl, rfl, trivial⟩

/-- C6: when the provider answers a `CreateEmbedding` call over `n`
input texts with vector list `data`, the call returns exactly the
elementwise conversion of `data` (same vector order, same element
order) when `data` is non-empty of length `n`; it fails with
`ErrUnexpectedResponseLength` when `data` is non-empty of a different
length; and any successful result is exactly that conversion with one
vector per input text — never a truncated or padded list. -/
theorem claim_C6_embedding_cardinality
    (conv : α → β) (provider : Nat → List String → Except Nat (List (List α)))
    (model : String) (texts : List String) (em : Nat) (data : List (List α))
    (hm : stringToEmbeddingModel.lookup
      (if model.length = 0 then defaultEmbeddingModel else model) = some em)
    (hp : provider em texts = .ok data) :
    (data ≠ [] → data.length = texts.length →
      (CreateEmbedding conv provider model texts).1 =
        .ok (data.map (fun v => v.map conv))) ∧
    (data ≠ [] → data.length ≠ texts.length →
      (CreateEmbedding conv provider model texts).1 =
        .error .UnexpectedResponseLength) ∧
    (∀ vs, (CreateEmbedding conv provider model texts).1 = .ok vs →
      vs = data.map (fun v => v.map conv) ∧ vs.length = texts.length) := by
  have hrun :
      CreateEmbedding conv provider model texts =
        (if data.length = 0 then (.error .EmptyResponse, true)
         else if texts.length ≠ data.length then
           (.error .UnexpectedResponseLength, true)
         else (.ok (data.map (fun v => v.map conv)), true)) := by
    simp only [CreateEmbedding, hm, hp]
  refine ⟨?_, ?_, ?_⟩
  · intro hne hlen
    rw [hrun]
    rw [if_neg (by simpa [List.length_eq_zero] using hne),
      if_neg (by omega)]
  · intro hne hlen
    rw [hrun]
    rw [if_neg (by simpa [List.length_eq_zero] using hne),
      if_pos (by omega)]
  · intro vs hvs
    rw [hrun] at hvs
    by_cases h0 : data.length = 0
    · rw [if_pos h0] at hvs; exact absurd hvs (by simp)
    · rw [if_neg h0] at hvs
      by_cases hlen : texts.length ≠ data.length
      · rw [if_pos hlen] at hvs; exact absurd hvs (by simp)
      · rw [if_neg hlen] at hvs
        simp only [Except.ok.injEq] at hvs
        subst hvs
        simp only [List.length_map]
        exact ⟨trivial, (not_not.mp hlen).symm⟩

/-- Witness for `claim_C6_embedding_cardinality`: two input texts, a
provider returning two vectors. -/
theorem claim_C6_witness :
    (([[1], [2, 3]] : List (List Nat)) ≠ [] →
      ([[1], [2, 3]] : List (List Nat)).length =
        (["a", "b"] : List String).length →
      (CreateEmbedding (fun (n : Nat) => (n : Int))
        (fun _ _ => .ok [[1], [2, 3]]) "" ["a", "b"]).1 =
        .ok (([[1], [2, 3]] : List (List Nat)).map
          (fun v => v.map (fun (n : Nat) => (n : Int))))) ∧
    (([[1], [2, 3]] : List (List Nat)) ≠ [] →
      ([[1], [2, 3]] : List (List Nat)).length ≠
        (["a", "b"] : List String).length →
      (CreateEmbedding (fun (n : Nat) => (n : Int))
        (fun _ _ => .ok [[1], [2, 3]]) "" ["a", "b"]).1 =
        .error .UnexpectedResponseLength) ∧
    (∀ vs, (CreateEmbedding (fun (n : Nat) => (n : Int))
        (fun _ _ => .ok [[1], [2, 3]]) "" ["a", "b"]).1 = .ok vs →
      vs = ([[1], [2, 3]] : List (List Nat)).map
          (fun v => v.map (fun (n : Nat) => (n : Int))) ∧
      vs.length = (["a", "b"] : List String).length) :=
  claim_C6_embedding_cardinality (fun (n : Nat) => (n : Int))
    (fun _ _ => .ok [[1], [2, 3]]) "" ["a", "b"] 0 [[1], [2, 3]] rfl rfl

/-- C7: a `CreateEmbedding` call with a non-empty model name that the
fixed name-to-provider-model mapping does not contain fails with
`ErrUnexpectedEmbeddingModel`, and the issued-request flag is `false` —
no provider request is made. -/
theorem claim_C7_unknown_model_fails_before_request
    (conv : α → β) (provider : Nat → List String → Except Nat (List (List α)))
    (model : String) (texts : List String)
    (hne : model.length ≠ 0)
    (hlookup : stringToEmbeddingModel.lookup model = none) :
    CreateEmbedding conv provider model texts =
      (.error .UnexpectedEmbeddingModel, false) := by
  simp only [CreateEmbedding, if_neg hne, hlookup]

/-- Witness for `claim_C7_unknown_model_fails_before_request` at the
spec's example name, for an arbitrary concrete provider. -/
theorem claim_C7_witness :
    CreateEmbedding (fun (n : Nat) => (n : Int))
      (fun _ _ => .ok [[1]]) "not-a-real-model" ["a"] =
      (.error .UnexpectedEmbeddingModel, false) :=
  claim_C7_unknown_model_fails_before_request (fun (n : Nat) => (n : Int))
    (fun _ _ => .ok [[1]]) "not-a-real-model" ["a"] (by decide) rfl

/-- C10: a `CreateEmbedding` call with an empty model name behaves
exactly as a call with the default embedding model
`text-embedding-ada-002` (the replacement happens before the mapping
lookup), and it never fails with `ErrUnexpectedEmbeddingModel`. -/
theorem claim_C10_empty_model_defaults
    (conv : α → β) (provider : Nat → List String → Except Nat (List (List α)))
    (texts : List String) :
    CreateEmbedding conv provider "" texts =
      CreateEmbedding conv provider defaultEmbeddingModel texts ∧
    (CreateEmbedding conv provider "" texts).1 ≠
      .error .UnexpectedEmbeddingModel := by
  constructor
  · rfl
  · have hrun :
        CreateEmbedding conv provider "" texts =
          (match provider 0 texts with
           | .error code => (.error (.provider code), true)
           | .ok data =>
             if data.length = 0 then (.error .EmptyResponse, true)
             else if texts.length ≠ data.length then
               (.error .UnexpectedResponseLength, true)
             else (.ok (data.map (fun v => v.map conv)), true)) := by
      rfl
    rw [hrun]
    cases hp : provider 0 texts with
    | error code => simp
    | ok data =>
      by_cases h0 : data.length = 0
      · simp [h0]
      · by_cases hlen : texts.length ≠ data.length
        · simp [h0, hlen]
        · simp [h0, hlen]

/-- Unmarshalling an object whose values are all JSON strings into a
`map[string]string` recovers exactly the underlying string entries. -/
theorem jStrEntries_map_str (M : List (String × String)) :
    jStrEntries (M.map (fun kv => (kv.1, JValue.str kv.2))) = some M := by
  induction M with
  | nil => rfl
  | cons kv rest ih =>
    obtain ⟨k, v⟩ := kv
    simp only [List.map_cons, jStrEntries, ih, Option.map_some']

/-- C9 (amended): for every string-to-string mapping `M` that contains
all declared schema field names, parsing the JSON object that encodes
`M` succeeds and returns `M` unchanged.  (When `M` additionally holds a
non-string value, `json.Unmarshal` into `map[string]string` rejects the
whole document and `Parse` fails instead of returning the string-valued
restriction of `M` — see the counterexample.) -/
theorem claim_C9_parse_round_trip
    (p : StructuredJSON) (M : List (String × String))
    (hM : ∀ rs ∈ p.ResponseJSONSchemas, (M.lookup rs.Name).isSome) :
    p.parse (.obj (M.map (fun kv => (kv.1, JValue.str kv.2)))) = .ok M := by
  simp only [StructuredJSON.parse, unmarshalStringMap, jStrEntries_map_str]
  have hfilter :
      p.ResponseJSONSchemas.filter
        (fun rs => (M.lookup rs.Name).isNone) = [] := by
    rw [List.filter_eq_nil_iff]
    intro rs hrs
    have := hM rs hrs
    simp only [Option.isNone]
    cases hl : M.lookup rs.Name with
    | none => rw [hl] at this; exact absurd this (by simp)
    | some v => simp
  rw [hfilter]
  rfl

/-- C9 counterexample (claim as frozen is false): with the single
declared field `prompt`, the mapping
`M = ("prompt" ↦ "a cat", "n" ↦ 1)` contains every declared field name,
yet parsing its JSON encoding fails with the unmarshalling error —
`json.Unmarshal` into `map[string]string` rejects the numeric value —
instead of succeeding with the string-valued restriction
`("prompt" ↦ "a cat")` of `M`. -/
theorem claim_C9_counterexample :
    (NewStructuredJSON [⟨"prompt", "the prompt"⟩]).parse
      (.obj [("prompt", .str "a cat"), ("n", .num 1)]) = .error .jsonErr ∧
    (Except.error ParseErr.jsonErr ≠
      (.ok [("prompt", "a cat")] :
        Except ParseErr (List (String × String)))) :=
  ⟨rfl, fun h => Except.noConfusion h⟩

/-- Witness for `claim_C9_parse_round_trip`: a two-field schema and a
mapping carrying both fields (plus one extra string entry). -/
theorem claim_C9_witness :
    (NewStructuredJSON [⟨"prompt", "d1"⟩, ⟨"negativePrompt", "d2"⟩]).parse
      (.obj (([("prompt", "a cat"), ("negativePrompt", "dogs"),
        ("extra", "x")] : List (String × String)).map
        (fun kv => (kv.1, JValue.str kv.2)))) =
      .ok [("prompt", "a cat"), ("negativePrompt", "dogs"), ("extra", "x")] :=
  claim_C9_parse_round_trip
    (NewStructuredJSON [⟨"prompt", "d1"⟩, ⟨"negativePrompt", "d2"⟩])
    [("prompt", "a cat"), ("negativePrompt", "dogs"), ("extra", "x")]
    (by decide)
